import Mathlib

/-!
Shallow embedding of the two distribution modules of the
`microtubule_catastrophe` package (`dist/gamma.py` and `dist/alt.py`),
together with theorems settling the specification claims about them.

Modelling conventions:
* `float` values are modelled by `ℝ`; log-likelihoods by `EReal`, so that
  the value `-np.inf` returned for invalid parameters is the bottom
  element `⊥` rather than an exception.
* `np.mean` and `np.var` (population variance) are `npMean` and `npVar`.
* `np.isclose(a, b)` with its default tolerances `rtol = 1e-5`,
  `atol = 1e-8` is the inequality `|a - b| ≤ 1e-8 + 1e-5 * |b|`.
* `scipy.optimize.minimize(..., method='Powell')` is an abstract
  `optimizer` argument: a function taking the objective and the initial
  point `x0` and returning an `OptResult` (success flag, solution vector
  `x`, diagnostic `message`), mirroring the fields of scipy's result
  object that the code consults.
* `numpy.random.Generator` is an abstract state type `σ` together with a
  primitive `exponential : scale → size → σ → List ℝ × σ` returning the
  drawn samples and the advanced generator state.
* Fallible code is modelled with `Except String`.  In particular
  `gamma.py` line 79 reads `return st.gamma.cdf(x, alpha, loc=0,
  scale=1/beta)` where no variable `x` is in scope (the parameter is
  named `t`), so every call raises `NameError`; its embedding returns
  that error unconditionally.
-/

noncomputable section

namespace MC

/-- Model of `np.mean(t)`: the sum of the entries divided by their
number (for the empty list this is `0 / 0 = 0` in Lean). -/
def npMean (t : List ℝ) : ℝ := t.sum / t.length

/-- Model of `np.var(t)`: the population variance, the mean of the
squared deviations from `npMean t`. -/
def npVar (t : List ℝ) : ℝ :=
  (t.map (fun x => (x - npMean t) ^ 2)).sum / t.length

/-- Model of `np.log x` as an extended real: `log x` for `x > 0` and
`-inf` otherwise (numpy emits `-inf` at `0`; the negative case, where
numpy would produce `nan`, is never reached by the code's callers, which
only apply it to positive densities). -/
def npLog (x : ℝ) : EReal := if 0 < x then ((Real.log x : ℝ) : EReal) else ⊥

/-- Model of `scipy.stats.gamma.logpdf(x, a, loc=0, scale=1/β)`: the
log-density of the Gamma distribution with shape `a` and rate `β`,
`(a-1)·log x + a·log β - β·x - log Γ(a)` for `x > 0` and `-inf`
otherwise. -/
def gammaLogPdf (a β x : ℝ) : EReal :=
  if 0 < x then
    (((a - 1) * Real.log x + a * Real.log β - β * x - Real.log (Real.Gamma a) : ℝ) : EReal)
  else ⊥

/-- Result record of the numerical optimizer, with the three fields of
`scipy.optimize.minimize`'s return value that `mle` consults:
`res.success`, `res.x` and `res.message`. -/
structure OptResult where
  success : Bool
  x : ℝ × ℝ
  message : String

/-- Abstract random generator handle over a state type `σ`:
`exponential scale size s` models `rg.exponential(scale, size=size)`,
returning the list of drawn samples and the advanced generator state. -/
structure RNG (σ : Type) where
  exponential : ℝ → ℕ → σ → List ℝ × σ

namespace Gamma

/-- Embedding of `gamma.cdf(params, t)`.  The source line is
`return st.gamma.cdf(x, alpha, loc=0, scale=1/beta)`, but no name `x`
is bound anywhere in the function (its parameter is `t`), so every call
raises `NameError`; the embedding therefore returns that error for all
inputs. -/
def cdf (params : ℝ × ℝ) (t : List ℝ) : Except String (List ℝ) :=
  Except.error "NameError: name x is not defined"

/-- Embedding of `gamma.log_like(params, t)`: `-inf` when `alpha ≤ 0`
or `beta ≤ 0`, otherwise the sum over `t` of the Gamma log-density with
shape `alpha` and rate `beta`. -/
def log_like (params : ℝ × ℝ) (t : List ℝ) : EReal :=
  if params.1 ≤ 0 ∨ params.2 ≤ 0 then ⊥
  else (t.map (fun x => gammaLogPdf params.1 params.2 x)).sum

/-- Embedding of `gamma.mle(t)`: computes the method-of-moments initial
guess `t_bar = np.mean(t)`, `beta_guess = t_bar / np.var(t)`,
`alpha_guess = t_bar * beta_guess`, runs the optimizer on the negated
log-likelihood from `(alpha_guess, beta_guess)`, and returns `res.x` on
success or fails with `res.message` otherwise. -/
def mle (optimizer : ((ℝ × ℝ) → EReal) → ℝ × ℝ → OptResult) (t : List ℝ) :
    Except String (ℝ × ℝ) :=
  let t_bar := npMean t
  let beta_guess := t_bar / npVar t
  let alpha_guess := t_bar * beta_guess
  let res := optimizer (fun params => -log_like params t) (alpha_guess, beta_guess)
  if res.success then Except.ok res.x else Except.error res.message

end Gamma

namespace Alt

/-- Embedding of `alt.draw(params, size, rg)`: draws `size` exponential
samples with scale `1/beta1`, then `size` exponential samples with scale
`1/beta2` from the advanced generator state, and returns their
elementwise sum together with the final generator state. -/
def draw {σ : Type} (rng : RNG σ) (params : ℝ × ℝ) (size : ℕ) (s : σ) :
    List ℝ × σ :=
  let r1 := rng.exponential (1 / params.1) size s
  let r2 := rng.exponential (1 / params.2) size r1.2
  (List.zipWith (fun a b => a + b) r1.1 r2.1, r2.2)

/-- Scalar body of `alt.pdf`: `beta1*beta2/(beta2-beta1) *
(exp(-beta1*t) - exp(-beta2*t))`, applied uniformly with no special
case for `beta1 = beta2`.  (In Lean division by zero yields `0`; in
Python the same unguarded division raises `ZeroDivisionError` at
`beta1 == beta2`.  No claim evaluates the formula there.) -/
def altPdf (β1 β2 x : ℝ) : ℝ :=
  β1 * β2 / (β2 - β1) * (Real.exp (-β1 * x) - Real.exp (-β2 * x))

/-- Embedding of `alt.pdf(params, t)`: the closed-form density applied
pointwise to each element of `t`. -/
def pdf (params : ℝ × ℝ) (t : List ℝ) : List ℝ :=
  t.map (altPdf params.1 params.2)

/-- Scalar body of `alt.cdf`: `beta1*beta2/(beta2-beta1) *
((1-exp(-beta1*t))/beta1 - (1-exp(-beta2*t))/beta2)`. -/
def altCdf (β1 β2 x : ℝ) : ℝ :=
  β1 * β2 / (β2 - β1) *
    ((1 - Real.exp (-β1 * x)) / β1 - (1 - Real.exp (-β2 * x)) / β2)

/-- Embedding of `alt.cdf(params, t)`: the closed-form cumulative
distribution applied pointwise to each element of `t`. -/
def cdf (params : ℝ × ℝ) (t : List ℝ) : List ℝ :=
  t.map (altCdf params.1 params.2)

/-- Embedding of `alt.log_like(params, t)`: `-inf` when `beta1 ≤ 0` or
`beta2 ≤ 0`; when `np.isclose(beta1, beta2)` (default tolerances), the
sum over `t` of the Gamma log-density with shape `2` and rate `beta1`;
otherwise the sum over `t` of `np.log` of the closed-form density. -/
def log_like (params : ℝ × ℝ) (t : List ℝ) : EReal :=
  if params.1 ≤ 0 ∨ params.2 ≤ 0 then ⊥
  else if |params.1 - params.2| ≤ 1e-8 + 1e-5 * |params.2| then
    (t.map (fun x => gammaLogPdf 2 params.1 x)).sum
  else (t.map (fun x => npLog (altPdf params.1 params.2 x))).sum

/-- Embedding of `alt.mle(t)`: computes the equal-rate initial guess
`beta_guess = (1 / np.mean(t)) * 2`, runs the optimizer on the negated
log-likelihood from `(beta_guess, beta_guess)`, and returns `res.x` on
success or fails with `res.message` otherwise. -/
def mle (optimizer : ((ℝ × ℝ) → EReal) → ℝ × ℝ → OptResult) (t : List ℝ) :
    Except String (ℝ × ℝ) :=
  let beta_guess := 1 / npMean t * 2
  let res := optimizer (fun params => -log_like params t) (beta_guess, beta_guess)
  if res.success then Except.ok res.x else Except.error res.message

end Alt

/-! Helper lemmas shared by several claim theorems. -/

/-- The closed-form density is symmetric in the two rates: both the
constant `β1·β2/(β2-β1)` and the difference of exponentials flip sign
under the swap, so the product is unchanged. -/
lemma altPdf_comm (β1 β2 x : ℝ) : Alt.altPdf β1 β2 x = Alt.altPdf β2 β1 x := by
  unfold Alt.altPdf
  rw [show β1 - β2 = -(β2 - β1) by ring, div_neg]
  ring

/-- The closed-form cumulative distribution is symmetric in the two
rates, by the same sign-flip cancellation as for the density. -/
lemma altCdf_comm (β1 β2 x : ℝ) : Alt.altCdf β1 β2 x = Alt.altCdf β2 β1 x := by
  unfold Alt.altCdf
  rw [show β1 - β2 = -(β2 - β1) by ring, div_neg]
  ring

/-- For nonzero rates the closed-form cumulative distribution has the
closed-form density as its derivative at every point. -/
lemma altCdf_hasDerivAt (β1 β2 : ℝ) (h1 : β1 ≠ 0) (h2 : β2 ≠ 0) (x : ℝ) :
    HasDerivAt (Alt.altCdf β1 β2) (Alt.altPdf β1 β2 x) x := by
  have e1 : HasDerivAt (fun y : ℝ => -β1 * y) (-β1) x := by
    simpa using (hasDerivAt_id x).const_mul (-β1)
  have e2 : HasDerivAt (fun y : ℝ => -β2 * y) (-β2) x := by
    simpa using (hasDerivAt_id x).const_mul (-β2)
  have f1 : HasDerivAt (fun y : ℝ => (1 - Real.exp (-β1 * y)) / β1)
      (-(Real.exp (-β1 * x) * -β1) / β1) x := (e1.exp.const_sub 1).div_const β1
  have f2 : HasDerivAt (fun y : ℝ => (1 - Real.exp (-β2 * y)) / β2)
      (-(Real.exp (-β2 * x) * -β2) / β2) x := (e2.exp.const_sub 1).div_const β2
  have h := (f1.sub f2).const_mul (β1 * β2 / (β2 - β1))
  unfold Alt.altCdf Alt.altPdf
  convert h using 1
  congr 1
  field_simp

/-- For `0 < β1 < β2` the closed-form cumulative distribution is
non-decreasing on `[0, ∞)`: its derivative, the density, is
nonnegative there because the constant `β1·β2/(β2-β1)` is positive and
`exp(-β2·x) ≤ exp(-β1·x)` for `x ≥ 0`. -/
lemma altCdf_monotoneOn (β1 β2 : ℝ) (h1 : 0 < β1) (h2 : 0 < β2)
    (hlt : β1 < β2) : MonotoneOn (Alt.altCdf β1 β2) (Set.Ici 0) := by
  have hd : ∀ x : ℝ, HasDerivAt (Alt.altCdf β1 β2) (Alt.altPdf β1 β2 x) x :=
    altCdf_hasDerivAt β1 β2 (ne_of_gt h1) (ne_of_gt h2)
  apply monotoneOn_of_deriv_nonneg (convex_Ici 0)
  · exact fun x _ => (hd x).continuousAt.continuousWithinAt
  · exact fun x _ => (hd x).differentiableAt.differentiableWithinAt
  · intro x hx
    rw [interior_Ici] at hx
    rw [(hd x).deriv]
    unfold Alt.altPdf
    apply mul_nonneg
    · exact div_nonneg (mul_nonneg h1.le h2.le) (sub_nonneg.2 hlt.le)
    · refine sub_nonneg.2 (Real.exp_le_exp.2 ?_)
      have := mul_le_mul_of_nonneg_right hlt.le (le_of_lt hx)
      linarith

/-! Theorems settling the specification claims. -/

/-- C1: the spec claims `GammaModel.cdf(params, t)` returns the pointwise
Gamma cumulative probability at each element of `t`; in the code every
call instead raises `NameError` because the return line evaluates the
undefined name `x` (the parameter is `t`), so `cdf` never returns
values. -/
theorem claim_C1 (params : ℝ × ℝ) (t : List ℝ) :
    Gamma.cdf params t = Except.error "NameError: name x is not defined" :=
  rfl

/-- C3: for every parameter pair and every measurement list, `log_like`
returns the value `-inf` (the `EReal` bottom element, not an exception)
whenever any component of the pair is `≤ 0`, for both models. -/
theorem claim_C3 (α β β1 β2 : ℝ) (t u : List ℝ) :
    ((α ≤ 0 ∨ β ≤ 0) → Gamma.log_like (α, β) t = ⊥) ∧
    ((β1 ≤ 0 ∨ β2 ≤ 0) → Alt.log_like (β1, β2) u = ⊥) := by
  constructor <;> intro h
  · rw [Gamma.log_like, if_pos h]
  · rw [Alt.log_like, if_pos h]

/-- Witness for C3 at the spec's example `GammaModel.log_like((-1,2),
[1,2,3]) == -inf` and at `AlternativeModel.log_like((1,-2), [1])`. -/
theorem claim_C3_witness :
    Gamma.log_like (-1, 2) [1, 2, 3] = ⊥ ∧ Alt.log_like (1, -2) [1] = ⊥ :=
  ⟨(claim_C3 (-1) 2 1 (-2) [1, 2, 3] [1]).1 (Or.inl (by norm_num)),
   (claim_C3 (-1) 2 1 (-2) [1, 2, 3] [1]).2 (Or.inr (by norm_num))⟩

/-- C5: `AlternativeModel.pdf(params, t)` is, elementwise, exactly the
closed-form density `beta1*beta2/(beta2-beta1) * (exp(-beta1*t) -
exp(-beta2*t))`.  The equation holds for every parameter pair, with no
hypothesis excluding `beta1 = beta2`: the formula is applied uniformly
and the division by `beta2 - beta1` is unguarded. -/
theorem claim_C5 (β1 β2 : ℝ) (t : List ℝ) :
    Alt.pdf (β1, β2) t =
      t.map (fun x => β1 * β2 / (β2 - β1) *
        (Real.exp (-β1 * x) - Real.exp (-β2 * x))) :=
  rfl

/-- C2: for any optimizer and any sample, if the optimizer's result on
the negated log-likelihood (started from the code's initial guess)
reports failure, `mle` fails with exactly the optimizer's diagnostic
message; if it reports success, `mle` returns the optimizer's parameter
vector.  Stated for both `GammaModel.mle` and `AlternativeModel.mle`. -/
theorem claim_C2 (opt : ((ℝ × ℝ) → EReal) → ℝ × ℝ → OptResult)
    (t : List ℝ) (resG resA : OptResult)
    (hG : resG = opt (fun params => -Gamma.log_like params t)
      (npMean t * (npMean t / npVar t), npMean t / npVar t))
    (hA : resA = opt (fun params => -Alt.log_like params t)
      (1 / npMean t * 2, 1 / npMean t * 2)) :
    (resG.success = false → Gamma.mle opt t = Except.error resG.message) ∧
    (resG.success = true → Gamma.mle opt t = Except.ok resG.x) ∧
    (resA.success = false → Alt.mle opt t = Except.error resA.message) ∧
    (resA.success = true → Alt.mle opt t = Except.ok resA.x) := by
  subst hG hA
  refine ⟨fun h => ?_, fun h => ?_, fun h => ?_, fun h => ?_⟩ <;>
    simp only [Gamma.mle, Alt.mle, h] <;> simp [h]

/-- Witness for C2: a constantly failing optimizer makes both `mle`s
fail with its message, never returning an estimate. -/
theorem claim_C2_witness :
    Gamma.mle (fun _ _ => ⟨false, (0, 0), "Powell failed"⟩) [1] =
      Except.error "Powell failed" ∧
    Alt.mle (fun _ _ => ⟨false, (0, 0), "Powell failed"⟩) [1] =
      Except.error "Powell failed" := by
  have h := claim_C2 (fun _ _ => ⟨false, (0, 0), "Powell failed"⟩) [1]
    ⟨false, (0, 0), "Powell failed"⟩ ⟨false, (0, 0), "Powell failed"⟩ rfl rfl
  exact ⟨h.1 rfl, h.2.2.1 rfl⟩

/-- C6: for any sample with positive mean and variance,
`GammaModel.mle` hands the optimizer the method-of-moments starting
point: with `t_bar = np.mean(t)`, `beta_guess = t_bar / np.var(t)` and
`alpha_guess = t_bar * beta_guess`, the point `(alpha_guess,
beta_guess)` — observed here through an optimizer that reports back its
received `x0` as the solution. -/
theorem claim_C6 (t : List ℝ) (hm : 0 < npMean t) (hv : 0 < npVar t) :
    Gamma.mle (fun _obj x0 => ⟨true, x0, ""⟩) t =
      Except.ok (npMean t * (npMean t / npVar t), npMean t / npVar t) := by
  simp [Gamma.mle]

/-- Witness for C6 at the sample `[1, 3]` (mean `2`, variance `1`). -/
theorem claim_C6_witness :
    Gamma.mle (fun _obj x0 => ⟨true, x0, ""⟩) [1, 3] =
      Except.ok (npMean [1, 3] * (npMean [1, 3] / npVar [1, 3]),
        npMean [1, 3] / npVar [1, 3]) :=
  claim_C6 [1, 3] (by norm_num [npMean]) (by norm_num [npVar, npMean])

/-- C7: for positive rates, `AlternativeModel.draw` returns the
elementwise sum of `size` exponential(rate `beta1`, i.e. scale
`1/beta1`) samples drawn first and `size` exponential(rate `beta2`)
samples drawn second from the generator state the first draw advanced,
together with the final generator state. -/
theorem claim_C7 {σ : Type} (rng : RNG σ) (β1 β2 : ℝ)
    (h1 : 0 < β1) (h2 : 0 < β2) (size : ℕ) (s : σ) :
    Alt.draw rng (β1, β2) size s =
      (List.zipWith (fun a b => a + b)
        (rng.exponential (1 / β1) size s).1
        (rng.exponential (1 / β2) size (rng.exponential (1 / β1) size s).2).1,
       (rng.exponential (1 / β2) size (rng.exponential (1 / β1) size s).2).2) :=
  rfl

/-- Witness for C7 with a concrete counter-state generator whose
`exponential` primitive returns `size` copies of the scale and advances
the counter by `size`. -/
theorem claim_C7_witness :
    Alt.draw (⟨fun scale n s => (List.replicate n scale, s + n)⟩ : RNG ℕ)
        (1, 2) 1 0 =
      (List.zipWith (fun a b => a + b)
        ((⟨fun scale n s => (List.replicate n scale, s + n)⟩ :
          RNG ℕ).exponential (1 / 1) 1 0).1
        ((⟨fun scale n s => (List.replicate n scale, s + n)⟩ :
          RNG ℕ).exponential (1 / 2) 1
          ((⟨fun scale n s => (List.replicate n scale, s + n)⟩ :
            RNG ℕ).exponential (1 / 1) 1 0).2).1,
       ((⟨fun scale n s => (List.replicate n scale, s + n)⟩ :
          RNG ℕ).exponential (1 / 2) 1
          ((⟨fun scale n s => (List.replicate n scale, s + n)⟩ :
            RNG ℕ).exponential (1 / 1) 1 0).2).2) :=
  claim_C7 ⟨fun scale n s => (List.replicate n scale, s + n)⟩ 1 2
    (by norm_num) (by norm_num) 1 0

/-- C10: for strictly positive parameters, `log_like` of the empty
measurement list is exactly `0` (the empty sum), for both models. -/
theorem claim_C10 (α β β1 β2 : ℝ) (hα : 0 < α) (hβ : 0 < β)
    (h1 : 0 < β1) (h2 : 0 < β2) :
    Gamma.log_like (α, β) [] = 0 ∧ Alt.log_like (β1, β2) [] = 0 := by
  constructor
  · rw [Gamma.log_like, if_neg (by simp only [not_or, not_le]; exact ⟨hα, hβ⟩)]
    simp
  · rw [Alt.log_like, if_neg (by simp only [not_or, not_le]; exact ⟨h1, h2⟩)]
    split <;> simp

/-- Witness for C10 at `(alpha, beta) = (1, 2)` and `(beta1, beta2) =
(3, 4)`. -/
theorem claim_C10_witness :
    Gamma.log_like (1, 2) [] = 0 ∧ Alt.log_like (3, 4) [] = 0 :=
  claim_C10 1 2 3 4 (by norm_num) (by norm_num) (by norm_num) (by norm_num)

/-- C4: for positive rates, when `beta1` and `beta2` are within
`np.isclose`'s default relative tolerance, `AlternativeModel.log_like`
is the sum over `t` of the Gamma(shape `2`, rate `beta1`) log-density;
otherwise it is the sum over `t` of `np.log` of the pointwise density
`pdf(params, t)`. -/
theorem claim_C4 (β1 β2 : ℝ) (t : List ℝ) (h1 : 0 < β1) (h2 : 0 < β2) :
    (|β1 - β2| ≤ 1e-8 + 1e-5 * |β2| →
      Alt.log_like (β1, β2) t = (t.map (fun x => gammaLogPdf 2 β1 x)).sum) ∧
    (¬ |β1 - β2| ≤ 1e-8 + 1e-5 * |β2| →
      Alt.log_like (β1, β2) t = ((Alt.pdf (β1, β2) t).map npLog).sum) := by
  have hg : ¬(β1 ≤ 0 ∨ β2 ≤ 0) := by
    simp only [not_or, not_le]; exact ⟨h1, h2⟩
  constructor <;> intro hc
  · rw [Alt.log_like, if_neg hg, if_pos hc]
  · rw [Alt.log_like, if_neg hg, if_neg hc, Alt.pdf, List.map_map]
    rfl

/-- Witness for C4: the near-equal branch at `(1, 1)` and the generic
branch at `(1, 2)`, each on the sample `[1]`. -/
theorem claim_C4_witness :
    Alt.log_like (1, 1) [1] =
      (([1] : List ℝ).map (fun x => gammaLogPdf 2 1 x)).sum ∧
    Alt.log_like (1, 2) [1] = ((Alt.pdf (1, 2) [1]).map npLog).sum :=
  ⟨(claim_C4 1 1 [1] (by norm_num) (by norm_num)).1 (by norm_num),
   (claim_C4 1 2 [1] (by norm_num) (by norm_num)).2 (by norm_num)⟩

/-- C8: the spec claims both models' `cdf`s vanish at `0` and are
non-decreasing.  For `GammaModel` this fails: `cdf` raises `NameError`
on every call (the undefined name `x`), so in particular
`cdf(params, 0)` is not `0`.  For `AlternativeModel` with positive
distinct rates the property holds: the cumulative distribution is `0`
at `0` and non-decreasing on `[0, ∞)`. -/
theorem claim_C8 :
    Gamma.cdf (2, 3) [0] = Except.error "NameError: name x is not defined" ∧
    (∀ β1 β2 : ℝ, 0 < β1 → 0 < β2 → β1 ≠ β2 →
      Alt.cdf (β1, β2) [0] = [0] ∧
      MonotoneOn (Alt.altCdf β1 β2) (Set.Ici 0)) := by
  refine ⟨rfl, fun β1 β2 h1 h2 hne => ⟨?_, ?_⟩⟩
  · simp [Alt.cdf, Alt.altCdf]
  · rcases lt_or_gt_of_ne hne with h | h
    · exact altCdf_monotoneOn β1 β2 h1 h2 h
    · rw [funext (altCdf_comm β1 β2)]
      exact altCdf_monotoneOn β2 β1 h2 h1 h

/-- Witness for C8's universally quantified half at `(beta1, beta2) =
(1, 2)`. -/
theorem claim_C8_witness :
    Alt.cdf (1, 2) [0] = [0] ∧ MonotoneOn (Alt.altCdf 1 2) (Set.Ici 0) :=
  claim_C8.2 1 2 (by norm_num) (by norm_num) (by norm_num)

/-- C9: for distinct rates, `AlternativeModel.pdf` and
`AlternativeModel.cdf` are unchanged when the two rate parameters are
swapped. -/
theorem claim_C9 (β1 β2 : ℝ) (hne : β1 ≠ β2) (t : List ℝ) :
    Alt.pdf (β1, β2) t = Alt.pdf (β2, β1) t ∧
    Alt.cdf (β1, β2) t = Alt.cdf (β2, β1) t := by
  constructor
  · show t.map (Alt.altPdf β1 β2) = t.map (Alt.altPdf β2 β1)
    rw [funext (altPdf_comm β1 β2)]
  · show t.map (Alt.altCdf β1 β2) = t.map (Alt.altCdf β2 β1)
    rw [funext (altCdf_comm β1 β2)]

/-- Witness for C9 at `(beta1, beta2) = (1, 2)` on the sample `[0]`. -/
theorem claim_C9_witness :
    Alt.pdf (1, 2) [0] = Alt.pdf (2, 1) [0] ∧
    Alt.cdf (1, 2) [0] = Alt.cdf (2, 1) [0] :=
  claim_C9 1 2 (by norm_num) [0]

end MC

end
